import Mathlib

/-!
Shallow embedding of `predict.py` (device-characterization sweep script).

The script downloads a SPICE model file, builds a fixed testbench circuit,
enumerates a Cartesian sweep of (width, length, bulk-voltage) triples, runs a
DC sweep per triple through an external SPICE simulator, concatenates the
per-point tables, derives post-processed columns, writes the table to disk and
plots a sample.  The SPICE simulator itself is opaque: it is modelled as an
arbitrary function parameter.  Python floats are modelled as exact rationals
(`ℚ`); the constant `np.pi` is passed as an explicit rational parameter
`piVal`.  The filesystem touched by `setup_library` is modelled as an explicit
record of existing files and directories.
-/

namespace Predict

/-! ### Configuration constants (predict.py lines 19-40) -/

def lib_path : String := "lib"

def model_base : String := "90nm_bulk"

def model_file : String := model_base ++ ".lib"

def model_url : String := "http://ptm.asu.edu/modelcard/2006/" ++ model_base ++ ".pm"

def output_format : String := "csv"

def VSS : ℚ := 0

def VDD : ℚ := 12/10

def step_DC : ℚ := 1/100

def min_VB : ℚ := -1

def step_VB : ℚ := -(1/10)

def min_W : ℚ := 1/1000000

def max_W : ℚ := 75/1000000

def min_L : ℚ := 150/1000000000

def max_L : ℚ := 10/1000000

/-! ### The filesystem model and `setup_library` (lines 43-54) -/

/-- A filesystem: the set of existing regular files and existing directories,
each identified by its path string. -/
structure FileSystem where
  files : List String
  dirs : List String
deriving DecidableEq

/-- Result of a `setup_library` call: the filesystem afterwards, the list of
URLs that were downloaded during the call, and the returned directory path. -/
structure LibResult where
  fs : FileSystem
  downloads : List String
  ret : String
deriving DecidableEq

/-- Model of `setup_library(path, model, url)`: if `./path/model` is not an
existing file, create `./path` when missing, download `url` and write the
file; in every case return `./path`. -/
def setup_library (fs : FileSystem) (path model url : String) : LibResult :=
  let dir : String := "./" ++ path
  let model_path : String := dir ++ "/" ++ model
  if model_path ∈ fs.files then
    { fs := fs, downloads := [], ret := dir }
  else
    { fs := { files := model_path :: fs.files
            , dirs := if dir ∈ fs.dirs then fs.dirs else dir :: fs.dirs }
    , downloads := [url]
    , ret := dir }

/-! ### Saved parameters (lines 74-82) -/

/-- The column names of each per-point run table (line 74-80 of the source). -/
def column_names : List String :=
  [ "W", "L"
  , "Vds", "Vgs", "Vbs", "vth", "vdsat"
  , "id", "gbs", "gbd", "gds", "gm", "gmbs"
  , "cbb", "csb", "cdb", "cgb"
  , "css", "csd", "csg", "cds"
  , "cdd", "cdg", "cbs", "cbd"
  , "cbg", "cgd", "cgs", "cgg" ]

/-- The internal simulator parameters saved for the database (line 82). -/
def save_params : List String :=
  column_names.map (fun p => "@M0[" ++ p.toLower ++ "]")

/-! ### The mutable circuit state and `sim_dc` (lines 66-71 and 92-103) -/

/-- The pieces of circuit state that the script mutates between simulator
runs: the device geometry `M0.w`, `M0.l` and the bulk source value
`Vb.dc_value`.  Everything else about the circuit is fixed once at
construction time. -/
structure CircuitState where
  M0w : ℚ
  M0l : ℚ
  Vbdc : ℚ
deriving DecidableEq

/-- A voltage slice `slice(lo, hi, step)` passed to the DC analysis. -/
structure DCSlice where
  lo : ℚ
  hi : ℚ
  step : ℚ
deriving DecidableEq

/-- Model of `sim_dc(W, L, Vbs)`: overwrite `M0.w`, `M0.l` and `Vb.dc_value`,
run the opaque DC analysis `simulate` on the resulting circuit state with
the fixed drain and gate slices, and build the run table by pairing each
column name with the saved-parameter array the analysis returned for it.
The result is the circuit state after the call together with the table. -/
def sim_dc (simulate : DCSlice → DCSlice → CircuitState → String → List ℚ)
    (W L Vbs : ℚ) (s : CircuitState) :
    CircuitState × List (String × List ℚ) :=
  let s1 : CircuitState := { s with M0w := W }
  let s2 : CircuitState := { s1 with M0l := L }
  let s3 : CircuitState := { s2 with Vbdc := Vbs }
  let analysis : String → List ℚ :=
    simulate ⟨VSS, VDD, step_DC⟩ ⟨VSS, VDD, step_DC⟩ s3
  (s3, (column_names.zip save_params).map (fun p => (p.1, analysis p.2)))

/-! ### The sweep grid (lines 106-109) -/

/-- Ceiling of a rational number, computed with integer floor division. -/
def ceilQ (x : ℚ) : ℤ := -((-x.num).fdiv (x.den : ℤ))

/-- Model of `np.linspace(start, stop, num)` with its default inclusive
endpoint: `num` evenly spaced samples from `start` to `stop`. -/
def linspace (start stop : ℚ) (num : Nat) : List ℚ :=
  (List.range num).map
    (fun i : ℕ => start + (i : ℚ) * ((stop - start) / ((num : ℚ) - 1)))

/-- Model of `np.arange(start, stop, step)`: the length is the ceiling of
`(stop - start) / step` and the values are `start + i * step`; `stop` itself
is excluded. -/
def arange (start stop step : ℚ) : List ℚ :=
  (List.range (ceilQ ((stop - start) / step)).toNat).map
    (fun i : ℕ => start + (i : ℚ) * step)

/-- The ten channel widths `np.linspace(1e-6, 75e-6, num=10)` (line 109). -/
def widths : List ℚ := linspace (1/1000000) (75/1000000) 10

/-- The ten channel lengths `np.linspace(150e-9, 10e-6, num=10)` (line 108). -/
def lengths : List ℚ := linspace (150/1000000000) (10/1000000) 10

/-- The bulk voltages `np.arange(0.0, -1.0, step=-0.1)` (line 107). -/
def vbsValues : List ℚ := arange 0 (-1) (-(1/10))

/-- The sweep grid (lines 106-109): a list comprehension whose outer loop is
the bulk voltage, middle loop the length and inner loop the width, producing
`(w, l, vbs)` triples. -/
def sweep : List (ℚ × ℚ × ℚ) :=
  vbsValues.flatMap (fun vbs =>
    lengths.flatMap (fun l =>
      widths.map (fun w => (w, l, vbs))))

/-- A Cartesian product of two lists enumerated with the first list varying
slowest, written out for comparison with the sweep comprehension. -/
def prodList (xs : List α) (ys : List β) : List (α × β) :=
  xs.flatMap (fun x => ys.map (fun y => (x, y)))

/-! ### Concatenation of the per-point tables (line 121) -/

/-- A table together with its row-index labels, the part of a pandas frame
that `pd.concat` manipulates.  Rows are kept abstract. -/
structure DataFrame (α : Type _) where
  rows : List α
  index : List Nat

/-- Model of `pd.concat(results, ignore_index=True)`: the rows of all input
tables in order, re-labelled with a fresh contiguous index. -/
def concatIgnoreIndex (dfs : List (List α)) : DataFrame α :=
  { rows := dfs.flatten, index := List.range dfs.flatten.length }

/-! ### Post-processing of the concatenated table (lines 129-144) -/

/-- One row of the concatenated table, with the 29 raw columns produced by
`sim_dc` as fields. -/
structure Row where
  W : ℚ
  L : ℚ
  Vds : ℚ
  Vgs : ℚ
  Vbs : ℚ
  vth : ℚ
  vdsat : ℚ
  id : ℚ
  gbs : ℚ
  gbd : ℚ
  gds : ℚ
  gm : ℚ
  gmbs : ℚ
  cbb : ℚ
  csb : ℚ
  cdb : ℚ
  cgb : ℚ
  css : ℚ
  csd : ℚ
  csg : ℚ
  cds : ℚ
  cdd : ℚ
  cdg : ℚ
  cbs : ℚ
  cbd : ℚ
  cbg : ℚ
  cgd : ℚ
  cgs : ℚ
  cgg : ℚ
deriving DecidableEq

/-- A row after post-processing: the same columns plus the appended derived
column `fug`. -/
structure PRow extends Row where
  fug : ℚ
deriving DecidableEq

/-- A row with every raw column equal to zero, used as a base point for
concrete evaluations. -/
def zeroRow : Row :=
  ⟨0, 0, 0, 0, 0, 0, 0, 0, 0, 0, 0, 0, 0, 0, 0,
   0, 0, 0, 0, 0, 0, 0, 0, 0, 0, 0, 0, 0, 0⟩

/-- Model of the post-processing block (lines 129-144), acting on one row.
The script first appends `fug = gm / (2 * pi * cgg)`, then unpacks the raw
capacitance columns into locals, and finally overwrites the six columns
`cgd`, `cgb`, `cgs`, `cds`, `csb`, `cdb` using those raw locals.  `piVal`
stands for the constant `np.pi`. -/
def postProcess (piVal : ℚ) (r : Row) : PRow :=
  { toRow :=
      { r with
        cgd := -(1/2) * (r.cdg + r.cgd)
      , cgb := r.cgg + (1/2) * (r.cdg + r.cgd + r.csg + r.cgs)
      , cgs := -(1/2) * (r.cgs + r.csg)
      , cds := -(1/2) * (r.cds + r.csd)
      , csb := r.css + (1/2) * (r.cds + r.cgs + r.csd + r.cgs)
      , cdb := r.cdd + (1/2) * (r.cdg + r.cds + r.cgd + r.csd) }
  , fug := r.gm / (2 * piVal * r.cgg) }

/-- Round-half-to-even to the nearest integer, as Python's builtin `round`. -/
def roundHalfEven (x : ℚ) : ℤ :=
  if x - ⌊x⌋ < 1/2 then ⌊x⌋
  else if 1/2 < x - ⌊x⌋ then ⌊x⌋ + 1
  else if 2 ∣ ⌊x⌋ then ⌊x⌋ else ⌊x⌋ + 1

/-- Model of Python's `round(x, ndigits=2)` on exact rationals. -/
def pyRound2 (x : ℚ) : ℚ := (roundHalfEven (100 * x) : ℚ) / 100

/-- Model of the voltage rounding performed after the file is written
(lines 159-161): `Vgs`, `Vds` and `Vbs` are rounded to two digits. -/
def roundVoltages (p : PRow) : PRow :=
  { p with Vgs := pyRound2 p.Vgs, Vds := pyRound2 p.Vds, Vbs := pyRound2 p.Vbs }

/-! ### Writing the table to disk (lines 122-126 and 147-156) -/

/-- The columns of the final table: the 29 raw columns in their original
order, then the appended derived column `fug` (pandas appends a fresh column
at the end and overwrites existing columns in place). -/
def finalColumns : List String := column_names ++ ["fug"]

/-- The 20-name column selection bound to `columns` on lines 122-126; it is
referenced only inside the HDF branch of the output code. -/
def hdfColumns : List String :=
  [ "W", "L", "Vds", "Vgs", "Vbs"
  , "vth", "vdsat", "id", "fug"
  , "gbs", "gbd", "gds", "gm", "gmbs"
  , "cgd", "cgb", "cgs"
  , "cds", "csb", "cdb" ]

/-- What the output step does to the disk. -/
inductive OutputEffect where
  | csvFile : String → List String → OutputEffect
  | noFile : OutputEffect
deriving DecidableEq

/-- Model of the output dispatch (lines 147-156).  The CSV branch writes
`90nm_bulk.csv` with every column of the final table.  The HDF branch opens
`h5.File(data_file, 'w')`, but the name `data_file` is bound nowhere in the
script, so evaluating it raises `NameError` before any file is created; the
branch is modelled as that error.  Any other format writes nothing. -/
def writeData (fmt : String) : Except String OutputEffect :=
  if fmt ∈ (["hdf5", "hdf", "h5"] : List String) then
    Except.error "NameError: data_file is not defined"
  else if fmt = "csv" then
    Except.ok (OutputEffect.csvFile (model_base ++ ".csv") finalColumns)
  else
    Except.ok OutputEffect.noFile

/-! ### Helper lemmas -/

/-- The bulk-voltage list evaluates to the ten values 0.0 down to -0.9. -/
lemma vbsValues_eq :
    vbsValues = [0, -(1/10), -(1/5), -(3/10), -(2/5), -(1/2), -(3/5),
                 -(7/10), -(4/5), -(9/10)] := by
  have h1 : (((-1 : ℚ) - 0) / (-(1/10))) = 10 := by norm_num
  have h2 : (List.range (ceilQ (((-1 : ℚ) - 0) / (-(1/10)))).toNat)
      = List.range 10 := by rw [h1]; rfl
  simp only [vbsValues, arange, h2]
  norm_num [List.range_succ]

/-- Length of the explicit Cartesian product of two lists. -/
lemma prodList_length (xs : List α) (ys : List β) :
    (prodList xs ys).length = xs.length * ys.length := by
  induction xs with
  | nil => simp [prodList]
  | cons x xs ih =>
      simp [prodList, List.flatMap_cons] at ih ⊢
      simp [ih, Nat.succ_mul, Nat.add_comm]

/-- The sweep comprehension is the reordered Cartesian product of the three
coordinate lists, bulk voltage slowest and width fastest. -/
lemma sweep_eq_prod :
    sweep = (prodList vbsValues (prodList lengths widths)).map
      (fun p => (p.2.2, p.2.1, p.1)) := by
  simp only [sweep, prodList, List.map_flatMap, List.map_map]
  rfl

/-- The first sweep point is the smallest width, the smallest length and the
bulk voltage 0. -/
lemma first_triple_mem_sweep :
    ((1/1000000 : ℚ), (150/1000000000 : ℚ), (0 : ℚ)) ∈ sweep := by
  have hw : (1/1000000 : ℚ) ∈ widths := by
    rw [widths, linspace]
    refine List.mem_map.2 ⟨0, ?_, ?_⟩
    · simp
    · norm_num
  have hl : (150/1000000000 : ℚ) ∈ lengths := by
    rw [lengths, linspace]
    refine List.mem_map.2 ⟨0, ?_, ?_⟩
    · simp
    · norm_num
  have hv : (0 : ℚ) ∈ vbsValues := by
    rw [vbsValues_eq]; exact List.mem_cons_self _ _
  exact List.mem_flatMap.2 ⟨0, hv,
    List.mem_flatMap.2 ⟨_, hl, List.mem_map.2 ⟨_, hw, rfl⟩⟩⟩

/-! ### Claims -/

/-- C1: the sweep grid is the full Cartesian product of the 10 widths
(linspace 1e-6 to 75e-6), the 10 lengths (linspace 150e-9 to 10e-6) and the
10 bulk voltages (arange from 0.0 stepping by -0.1), listed as 1000
(w, l, vbs) triples with width varying fastest, then length, then bulk
voltage slowest. -/
theorem sweep_grid_cartesian :
    widths = linspace (1/1000000) (75/1000000) 10 ∧
    lengths = linspace (150/1000000000) (10/1000000) 10 ∧
    vbsValues = arange 0 (-1) (-(1/10)) ∧
    widths.length = 10 ∧ lengths.length = 10 ∧ vbsValues.length = 10 ∧
    sweep.length = 1000 ∧
    sweep = (prodList vbsValues (prodList lengths widths)).map
      (fun p => (p.2.2, p.2.1, p.1)) := by
  have hw : widths.length = 10 := by
    rw [widths, linspace, List.length_map, List.length_range]
  have hl : lengths.length = 10 := by
    rw [lengths, linspace, List.length_map, List.length_range]
  have hv : vbsValues.length = 10 := by rw [vbsValues_eq]; rfl
  refine ⟨rfl, rfl, rfl, hw, hl, hv, ?_, sweep_eq_prod⟩
  rw [sweep_eq_prod, List.length_map, prodList_length, prodList_length,
    hw, hl, hv]

/-- C2: in the post-processed table, each row's derived column fug equals
gm divided by (2 * pi * cgg) where gm and cgg are that row's raw values;
the gm and cgg columns themselves are left untouched, also by the later
voltage rounding. -/
theorem fug_derivation (piVal : ℚ) (r : Row) :
    (postProcess piVal r).fug = r.gm / (2 * piVal * r.cgg) ∧
    (postProcess piVal r).gm = r.gm ∧
    (postProcess piVal r).cgg = r.cgg ∧
    (roundVoltages (postProcess piVal r)).fug = r.gm / (2 * piVal * r.cgg) :=
  ⟨rfl, rfl, rfl, rfl⟩

/-- C2 witness: the fug formula evaluated at pi = 3 on the zero row. -/
theorem fug_derivation_witness :
    (postProcess 3 zeroRow).fug = zeroRow.gm / (2 * 3 * zeroRow.cgg) ∧
    (postProcess 3 zeroRow).gm = zeroRow.gm ∧
    (postProcess 3 zeroRow).cgg = zeroRow.cgg ∧
    (roundVoltages (postProcess 3 zeroRow)).fug
      = zeroRow.gm / (2 * 3 * zeroRow.cgg) :=
  fug_derivation 3 zeroRow

/-- C3 counterexample: with output_format one of the HDF spellings the
program does not write an HDF5 file at all; the branch evaluates the unbound
name `data_file` and the output step fails with a NameError. -/
theorem output_hdf5_counterexample :
    writeData "hdf5" = Except.error "NameError: data_file is not defined" :=
  rfl

/-- C3 amended: when output_format is "csv" the program writes a CSV file
with every column of the final table, derived columns included; when
output_format is one of "hdf5", "hdf", "h5" the output step raises a
NameError because `data_file` is undefined, so no file is written (had the
name been bound, the loop would have stored one dataset per column of the
20-name selection, not a flat numeric array with a parallel column-name
array); for any other value no file is written. -/
theorem output_dispatch_amended :
    writeData "csv"
      = Except.ok (OutputEffect.csvFile (model_base ++ ".csv") finalColumns) ∧
    finalColumns = column_names ++ ["fug"] ∧
    writeData "hdf5" = Except.error "NameError: data_file is not defined" ∧
    writeData "hdf" = Except.error "NameError: data_file is not defined" ∧
    writeData "h5" = Except.error "NameError: data_file is not defined" ∧
    (∀ fmt : String, fmt ∉ (["hdf5", "hdf", "h5"] : List String) →
      fmt ≠ "csv" → writeData fmt = Except.ok OutputEffect.noFile) := by
  refine ⟨rfl, rfl, rfl, rfl, rfl, ?_⟩
  intro fmt h1 h2
  simp [writeData, h1, h2]

/-- C3 witness: an unsupported format writes nothing. -/
theorem output_dispatch_amended_witness :
    writeData "txt" = Except.ok OutputEffect.noFile :=
  output_dispatch_amended.2.2.2.2.2 "txt" (by decide) (by decide)

/-- C4 counterexample: the table is mutated after concatenation.  On a row
whose raw cgd is 1 and raw cdg is 0, post-processing overwrites cgd with
-0.5 * (cdg + cgd) = -1/2; and on a row with Vgs = 1/300, the rounding done
after the file is written changes Vgs, so the persisted value differs from
the value used for plotting. -/
theorem post_concat_mutation_counterexample :
    (postProcess 3 { zeroRow with cgd := 1 }).cgd
      ≠ ({ zeroRow with cgd := 1 } : Row).cgd ∧
    (roundVoltages (postProcess 3 { zeroRow with Vgs := 1/300 })).Vgs
      ≠ (postProcess 3 { zeroRow with Vgs := 1/300 }).Vgs := by
  constructor
  · show -(1/2) * ((0 : ℚ) + 1) ≠ (1 : ℚ)
    norm_num
  · show pyRound2 (1/300) ≠ (1/300 : ℚ)
    have hf : ⌊(100 * (1/300) : ℚ)⌋ = 0 := by norm_num
    have hlt : (100 * (1/300) : ℚ) - ⌊(100 * (1/300) : ℚ)⌋ < 1/2 := by
      rw [hf]; norm_num
    rw [pyRound2, roundHalfEven, if_pos hlt, hf]
    norm_num

/-- C4 amended: after concatenation the table is mutated exactly twice:
post-processing appends fug and overwrites the six capacitance columns cgd,
cgb, cgs, cds, csb, cdb in place, and, after the file is written, Vgs, Vds
and Vbs are rounded to two digits, so the persisted voltages may differ from
the values used for plotting.  Every other column is unchanged from
concatenation time onwards, and the rounding leaves every non-voltage column
of the persisted table intact. -/
theorem post_concat_mutation_amended (piVal : ℚ) (r : Row) :
    (roundVoltages (postProcess piVal r)).W = r.W ∧
    (roundVoltages (postProcess piVal r)).L = r.L ∧
    (roundVoltages (postProcess piVal r)).vth = r.vth ∧
    (roundVoltages (postProcess piVal r)).vdsat = r.vdsat ∧
    (roundVoltages (postProcess piVal r)).id = r.id ∧
    (roundVoltages (postProcess piVal r)).gbs = r.gbs ∧
    (roundVoltages (postProcess piVal r)).gbd = r.gbd ∧
    (roundVoltages (postProcess piVal r)).gds = r.gds ∧
    (roundVoltages (postProcess piVal r)).gm = r.gm ∧
    (roundVoltages (postProcess piVal r)).gmbs = r.gmbs ∧
    (roundVoltages (postProcess piVal r)).cbb = r.cbb ∧
    (roundVoltages (postProcess piVal r)).css = r.css ∧
    (roundVoltages (postProcess piVal r)).csd = r.csd ∧
    (roundVoltages (postProcess piVal r)).csg = r.csg ∧
    (roundVoltages (postProcess piVal r)).cdd = r.cdd ∧
    (roundVoltages (postProcess piVal r)).cdg = r.cdg ∧
    (roundVoltages (postProcess piVal r)).cbs = r.cbs ∧
    (roundVoltages (postProcess piVal r)).cbd = r.cbd ∧
    (roundVoltages (postProcess piVal r)).cbg = r.cbg ∧
    (roundVoltages (postProcess piVal r)).cgg = r.cgg ∧
    (postProcess piVal r).Vds = r.Vds ∧
    (postProcess piVal r).Vgs = r.Vgs ∧
    (postProcess piVal r).Vbs = r.Vbs ∧
    (roundVoltages (postProcess piVal r)).fug = (postProcess piVal r).fug ∧
    (roundVoltages (postProcess piVal r)).cgd = (postProcess piVal r).cgd ∧
    (roundVoltages (postProcess piVal r)).cgb = (postProcess piVal r).cgb ∧
    (roundVoltages (postProcess piVal r)).cgs = (postProcess piVal r).cgs ∧
    (roundVoltages (postProcess piVal r)).cds = (postProcess piVal r).cds ∧
    (roundVoltages (postProcess piVal r)).csb = (postProcess piVal r).csb ∧
    (roundVoltages (postProcess piVal r)).cdb = (postProcess piVal r).cdb :=
  ⟨rfl, rfl, rfl, rfl, rfl, rfl, rfl, rfl, rfl, rfl,
   rfl, rfl, rfl, rfl, rfl, rfl, rfl, rfl, rfl, rfl,
   rfl, rfl, rfl, rfl, rfl, rfl, rfl, rfl, rfl, rfl⟩

/-- C4 witness: the preserved-column statement evaluated on the zero row. -/
theorem post_concat_mutation_amended_witness :
    (roundVoltages (postProcess 3 zeroRow)).W = zeroRow.W ∧
    (roundVoltages (postProcess 3 zeroRow)).L = zeroRow.L ∧
    (roundVoltages (postProcess 3 zeroRow)).vth = zeroRow.vth ∧
    (roundVoltages (postProcess 3 zeroRow)).vdsat = zeroRow.vdsat ∧
    (roundVoltages (postProcess 3 zeroRow)).id = zeroRow.id ∧
    (roundVoltages (postProcess 3 zeroRow)).gbs = zeroRow.gbs ∧
    (roundVoltages (postProcess 3 zeroRow)).gbd = zeroRow.gbd ∧
    (roundVoltages (postProcess 3 zeroRow)).gds = zeroRow.gds ∧
    (roundVoltages (postProcess 3 zeroRow)).gm = zeroRow.gm ∧
    (roundVoltages (postProcess 3 zeroRow)).gmbs = zeroRow.gmbs ∧
    (roundVoltages (postProcess 3 zeroRow)).cbb = zeroRow.cbb ∧
    (roundVoltages (postProcess 3 zeroRow)).css = zeroRow.css ∧
    (roundVoltages (postProcess 3 zeroRow)).csd = zeroRow.csd ∧
    (roundVoltages (postProcess 3 zeroRow)).csg = zeroRow.csg ∧
    (roundVoltages (postProcess 3 zeroRow)).cdd = zeroRow.cdd ∧
    (roundVoltages (postProcess 3 zeroRow)).cdg = zeroRow.cdg ∧
    (roundVoltages (postProcess 3 zeroRow)).cbs = zeroRow.cbs ∧
    (roundVoltages (postProcess 3 zeroRow)).cbd = zeroRow.cbd ∧
    (roundVoltages (postProcess 3 zeroRow)).cbg = zeroRow.cbg ∧
    (roundVoltages (postProcess 3 zeroRow)).cgg = zeroRow.cgg ∧
    (postProcess 3 zeroRow).Vds = zeroRow.Vds ∧
    (postProcess 3 zeroRow).Vgs = zeroRow.Vgs ∧
    (postProcess 3 zeroRow).Vbs = zeroRow.Vbs ∧
    (roundVoltages (postProcess 3 zeroRow)).fug = (postProcess 3 zeroRow).fug ∧
    (roundVoltages (postProcess 3 zeroRow)).cgd = (postProcess 3 zeroRow).cgd ∧
    (roundVoltages (postProcess 3 zeroRow)).cgb = (postProcess 3 zeroRow).cgb ∧
    (roundVoltages (postProcess 3 zeroRow)).cgs = (postProcess 3 zeroRow).cgs ∧
    (roundVoltages (postProcess 3 zeroRow)).cds = (postProcess 3 zeroRow).cds ∧
    (roundVoltages (postProcess 3 zeroRow)).csb = (postProcess 3 zeroRow).csb ∧
    (roundVoltages (postProcess 3 zeroRow)).cdb = (postProcess 3 zeroRow).cdb :=
  post_concat_mutation_amended 3 zeroRow

/-- C5: setup_library is cached on disk and idempotent: when the model file
already exists the call downloads nothing, writes nothing and returns the
library directory; and after any first call, a second call with the same
arguments downloads nothing, leaves the filesystem unchanged and returns the
same directory. -/
theorem setup_library_cached_idempotent (fs : FileSystem)
    (path model url : String) :
    (("./" ++ path ++ "/" ++ model) ∈ fs.files →
      setup_library fs path model url
        = ⟨fs, [], "./" ++ path⟩) ∧
    setup_library (setup_library fs path model url).fs path model url
      = ⟨(setup_library fs path model url).fs, [],
         (setup_library fs path model url).ret⟩ := by
  constructor
  · intro h
    simp [setup_library, h]
  · by_cases h : ("./" ++ path ++ "/" ++ model) ∈ fs.files
    · simp [setup_library, h]
    · simp [setup_library, h]

/-- C5 witness: a filesystem that already holds the model file is returned
unchanged with no download, and the call is idempotent there. -/
theorem setup_library_cached_idempotent_witness :
    setup_library ⟨["./lib/90nm_bulk.lib"], ["./lib"]⟩ "lib" "90nm_bulk.lib"
        model_url
      = ⟨⟨["./lib/90nm_bulk.lib"], ["./lib"]⟩, [], "./lib"⟩ ∧
    setup_library (setup_library ⟨["./lib/90nm_bulk.lib"], ["./lib"]⟩ "lib"
        "90nm_bulk.lib" model_url).fs "lib" "90nm_bulk.lib" model_url
      = ⟨(setup_library ⟨["./lib/90nm_bulk.lib"], ["./lib"]⟩ "lib"
            "90nm_bulk.lib" model_url).fs, [],
         (setup_library ⟨["./lib/90nm_bulk.lib"], ["./lib"]⟩ "lib"
            "90nm_bulk.lib" model_url).ret⟩ :=
  ⟨(setup_library_cached_idempotent ⟨["./lib/90nm_bulk.lib"], ["./lib"]⟩
      "lib" "90nm_bulk.lib" model_url).1 (by decide),
   (setup_library_cached_idempotent ⟨["./lib/90nm_bulk.lib"], ["./lib"]⟩
      "lib" "90nm_bulk.lib" model_url).2⟩

/-- C6: the run table produced by sim_dc has exactly the columns listed in
column_names, in order: the key fields W, L, Vds, Vgs, Vbs, then vth, vdsat,
the drain current id, the transconductances gbs, gbd, gds, gm, gmbs, and the
16 raw capacitances, 29 columns in total and nothing else. -/
theorem sim_dc_column_set
    (simulate : DCSlice → DCSlice → CircuitState → String → List ℚ)
    (W L Vbs : ℚ) (s : CircuitState) :
    ((sim_dc simulate W L Vbs s).2).map Prod.fst = column_names ∧
    column_names
      = ["W", "L", "Vds", "Vgs", "Vbs"] ++ ["vth", "vdsat"] ++ ["id"]
        ++ ["gbs", "gbd", "gds", "gm", "gmbs"]
        ++ ["cbb", "csb", "cdb", "cgb", "css", "csd", "csg", "cds",
            "cdd", "cdg", "cbs", "cbd", "cbg", "cgd", "cgs", "cgg"] ∧
    column_names.length = 29 :=
  ⟨rfl, rfl, rfl⟩

/-- C6 witness: the column list of a concrete run with a trivial simulator. -/
theorem sim_dc_column_set_witness :
    ((sim_dc (fun _ _ _ _ => []) 1 2 3 ⟨0, 0, 0⟩).2).map Prod.fst
      = column_names ∧
    column_names
      = ["W", "L", "Vds", "Vgs", "Vbs"] ++ ["vth", "vdsat"] ++ ["id"]
        ++ ["gbs", "gbd", "gds", "gm", "gmbs"]
        ++ ["cbb", "csb", "cdb", "cgb", "css", "csd", "csg", "cds",
            "cdd", "cdg", "cbs", "cbd", "cbg", "cgd", "cgs", "cgg"] ∧
    column_names.length = 29 :=
  sim_dc_column_set (fun _ _ _ _ => []) 1 2 3 ⟨0, 0, 0⟩

/-- C7: the concatenated table is exactly the union of the per-point run
tables: its rows are the rows of all runs in order with within-run order
preserved, its row count is the sum of the per-run row counts, every row
value occurs exactly as often as in the runs combined, and the row index is
the fresh contiguous range. -/
theorem concat_union_of_runs {α : Type} [DecidableEq α]
    (dfs : List (List α)) :
    (concatIgnoreIndex dfs).rows = dfs.flatten ∧
    (concatIgnoreIndex dfs).rows.length = (dfs.map List.length).sum ∧
    (concatIgnoreIndex dfs).index
      = List.range ((dfs.map List.length).sum) ∧
    ∀ a : α, (concatIgnoreIndex dfs).rows.count a
      = (dfs.map (List.count a)).sum := by
  refine ⟨rfl, ?_, ?_, ?_⟩
  · simp [concatIgnoreIndex]
  · simp [concatIgnoreIndex]
  · intro a
    simp [concatIgnoreIndex, List.count_flatten]

/-- C7 witness: concatenation of two concrete run tables. -/
theorem concat_union_of_runs_witness :
    (concatIgnoreIndex [[(1 : ℕ), 2], [2, 3]]).rows.count 2
      = (([[(1 : ℕ), 2], [2, 3]]).map (List.count 2)).sum :=
  (concat_union_of_runs [[(1 : ℕ), 2], [2, 3]]).2.2.2 2

/-- C8: sim_dc is insensitive to the circuit state left behind by earlier
runs: it overwrites M0.w, M0.l and Vb.dc_value, the only pieces of circuit
state the script ever mutates, before running the analysis, so for any
simulator function its result on a triple is the same from any two starting
states, both the run table and the final state. -/
theorem sim_dc_independent_of_prior_state
    (simulate : DCSlice → DCSlice → CircuitState → String → List ℚ)
    (W L Vbs : ℚ) (s s' : CircuitState) :
    sim_dc simulate W L Vbs s = sim_dc simulate W L Vbs s' := by
  cases s
  cases s'
  rfl

/-- C8 witness: two different prior states give the same run. -/
theorem sim_dc_independent_of_prior_state_witness :
    sim_dc (fun _ _ _ _ => []) 1 2 3 ⟨0, 0, 0⟩
      = sim_dc (fun _ _ _ _ => []) 1 2 3 ⟨5, 6, 7⟩ :=
  sim_dc_independent_of_prior_state (fun _ _ _ _ => []) 1 2 3 ⟨0, 0, 0⟩ ⟨5, 6, 7⟩

/-- C9: the bulk-voltage dimension holds exactly the ten values 0.0, -0.1,
..., -0.9: the half-open arange excludes its endpoint, so the configured
minimum -1.0 never appears, and no sweep point carries the bulk voltage
-1.0. -/
theorem vbs_sweep_excludes_min_vb :
    vbsValues = [0, -(1/10), -(1/5), -(3/10), -(2/5), -(1/2), -(3/5),
                 -(7/10), -(4/5), -(9/10)] ∧
    (-1 : ℚ) ∉ vbsValues ∧
    ∀ t ∈ sweep, t.2.2 ≠ (-1 : ℚ) := by
  refine ⟨vbsValues_eq, ?_, ?_⟩
  · intro hm
    rw [vbsValues_eq] at hm
    norm_num [List.mem_cons] at hm
  · intro t ht hv
    obtain ⟨vbs, hvbs, ht2⟩ := List.mem_flatMap.1 ht
    obtain ⟨l, hl, ht3⟩ := List.mem_flatMap.1 ht2
    obtain ⟨w, hw, rfl⟩ := List.mem_map.1 ht3
    have hv' : vbs = -1 := hv
    rw [hv'] at hvbs
    rw [vbsValues_eq] at hvbs
    norm_num [List.mem_cons] at hvbs

/-- C9 witness: the first sweep point has bulk voltage 0, not -1. -/
theorem vbs_sweep_excludes_min_vb_witness :
    ((1/1000000 : ℚ), (150/1000000000 : ℚ), (0 : ℚ)).2.2 ≠ (-1 : ℚ) :=
  vbs_sweep_excludes_min_vb.2.2 _ first_triple_mem_sweep

/-- C10: the derived column csb is computed by the asymmetric formula
css + 0.5 * (cds + cgs + csd + cgs): the raw term cgs enters twice, so with
full weight, while csg never enters (changing csg alone leaves csb
unchanged); the analogous column cdb sums its four distinct raw terms cdg,
cds, cgd, csd. -/
theorem csb_cdb_formulas (piVal : ℚ) (r : Row) :
    (postProcess piVal r).csb
      = r.css + (1/2) * (r.cds + r.cgs + r.csd + r.cgs) ∧
    (postProcess piVal r).csb
      = r.css + (1/2) * r.cds + (1/2) * r.csd + r.cgs ∧
    (∀ x : ℚ, (postProcess piVal { r with csg := x }).csb
      = (postProcess piVal r).csb) ∧
    (postProcess piVal r).cdb
      = r.cdd + (1/2) * (r.cdg + r.cds + r.cgd + r.csd) := by
  refine ⟨rfl, ?_, fun x => rfl, rfl⟩
  show r.css + (1/2) * (r.cds + r.cgs + r.csd + r.cgs)
    = r.css + (1/2) * r.cds + (1/2) * r.csd + r.cgs
  ring

/-- C10 witness: the csb and cdb formulas evaluated on the zero row. -/
theorem csb_cdb_formulas_witness :
    (postProcess 3 zeroRow).csb
      = zeroRow.css + (1/2) * (zeroRow.cds + zeroRow.cgs + zeroRow.csd
          + zeroRow.cgs) ∧
    (postProcess 3 zeroRow).csb
      = zeroRow.css + (1/2) * zeroRow.cds + (1/2) * zeroRow.csd
          + zeroRow.cgs ∧
    (∀ x : ℚ, (postProcess 3 { zeroRow with csg := x }).csb
      = (postProcess 3 zeroRow).csb) ∧
    (postProcess 3 zeroRow).cdb
      = zeroRow.cdd + (1/2) * (zeroRow.cdg + zeroRow.cds + zeroRow.cgd
          + zeroRow.csd) :=
  csb_cdb_formulas 3 zeroRow

end Predict
